import Mathlib

/-!
Verification of the Gamingflix-Bot request-lifecycle widget.

The repository consists of a Tailwind configuration (presentation only) and a
single React component (`App`) implementing the Steam-code request state
machine.  This file is a shallow embedding of that component's logic:

* `Model` collects the component's `useState` hooks (`state`, `currentCode`,
  `progress`, `timeRemaining`, `history`, `showHistory`, `notification`,
  `lastRequestTime`) together with the timer bookkeeping that the component
  keeps in refs or in anonymous `setTimeout` closures: `intervalActive` and
  `timeoutActive` track whether `intervalRef` / `timeoutRef` hold a live timer,
  `startTime` is the `startTime` constant captured by the interval callback,
  `pendingSuccess` is the multiset of due times of the anonymous 30-second
  auto-`success` timers (these are *not* stored in any ref), and
  `pendingNotifClears` the due times of the 3-second notification-clear timers.
* Each timer / promise callback of `requestSteamCode` is embedded as its own
  function (`intervalTick`, `budgetTimeout`, `lookupSuccess`, `lookupFailure`,
  `autoSuccessFire`, `notifClearFire`), transcribed line by line from the
  source.
* The single-threaded JS event loop is modelled by `step` / `run`: a run is a
  fold over a list of time-stamped events.  Timer callbacks whose timer was
  already cancelled are no-ops (guarded by `intervalActive`, `timeoutActive`,
  membership in `pendingSuccess` / `pendingNotifClears`).  Timers due at the
  same instant fire in registration order (interval before budget timeout
  before the lookup promise, which are registered in that order in the
  source), so schedules below list tied events in that order.
* Times are `Nat` milliseconds (`Date.now()` values).  JS
  `Math.max(45 - Math.floor(elapsed / 1000), 0)` coincides with truncated
  `Nat` subtraction and division for the non-negative elapsed times that
  occur in runs, and the JS test `remaining <= 0` on that clamped value
  coincides with `remaining = 0`.  `progress` is kept as an exact rational;
  the claims only inspect the exact values `0` and `100`.
-/

/-- `status: 'success' | 'error'` of a history entry. -/
inductive RequestStatus where
  | success
  | error
deriving DecidableEq

/-- `interface CodeRequest` from the source; `timestamp` is a millisecond
`Date` value. -/
structure CodeRequest where
  id : String
  code : String
  timestamp : Nat
  status : RequestStatus
  searchTime : Nat
deriving DecidableEq

/-- `APP_STATES` from the source. -/
inductive AppState where
  | idle
  | searching
  | found
  | success
  | error
deriving DecidableEq

/-- The component state: the `useState` hooks plus timer bookkeeping (see the
module comment). -/
structure Model where
  state : AppState
  currentCode : String
  progress : Rat
  timeRemaining : Nat
  history : List CodeRequest
  showHistory : Bool
  notification : String
  lastRequestTime : Nat
  intervalActive : Bool
  timeoutActive : Bool
  startTime : Nat
  pendingSuccess : List Nat
  pendingNotifClears : List Nat
deriving DecidableEq

/-- The initial hook values of `App`. -/
def initModel : Model :=
  { state := AppState.idle
    currentCode := ""
    progress := 0
    timeRemaining := 0
    history := []
    showHistory := false
    notification := ""
    lastRequestTime := 0
    intervalActive := false
    timeoutActive := false
    startTime := 0
    pendingSuccess := []
    pendingNotifClears := [] }

/-- `showNotification`: sets the message and schedules a 3000 ms clear. -/
def showNotification (now : Nat) (message : String) (s : Model) : Model :=
  { s with notification := message
           pendingNotifClears := s.pendingNotifClears ++ [now + 3000] }

/-- `canRequestCode`: `Date.now() - lastRequestTime > 60000`. -/
def canRequestCode (now : Nat) (s : Model) : Bool :=
  decide (now - s.lastRequestTime > 60000)

/-- The history update `prev => [newRequest, ...prev.slice(0, 9)]` used on every
append. -/
def appendHistory (entry : CodeRequest) (h : List CodeRequest) : List CodeRequest :=
  entry :: h.take 9

/-- The startup `useEffect` reading `localStorage.getItem('steam-2fa-history')`.
The outer `Option` is presence of the stored string; since `JSON.parse` is a
host primitive, its outcome on that string is abstracted as the inner
`Option` (`none` = the string does not parse).  The source guards only
`if (savedHistory)` and calls `JSON.parse` with no `try`/`catch`, so a parse
failure is an uncaught exception, embedded as `Except.error`; a successful
parse maps the entries back (timestamp revival), embedded as the identity. -/
def loadHistory (stored : Option (Option (List CodeRequest))) :
    Except String (List CodeRequest) :=
  match stored with
  | none => Except.ok []
  | some none => Except.error "SyntaxError: JSON.parse"
  | some (some parsed) => Except.ok parsed

/-- `requestSteamCode` up to the suspension point: the rate-limit guard, the
`state === SEARCHING` guard, and the synchronous state updates that start a
request.  The returned `Bool` records whether a lookup (and the two timers)
was started. -/
def requestSteamCode (now : Nat) (s : Model) : Model × Bool :=
  if canRequestCode now s = false then
    (showNotification now "Aguarde 1 minuto antes de solicitar novamente" s, false)
  else if s.state = AppState.searching then
    (s, false)
  else
    ({ s with state := AppState.searching
              currentCode := ""
              progress := 0
              timeRemaining := 45
              lastRequestTime := now
              startTime := now
              intervalActive := true
              timeoutActive := true }, true)

/-- One firing of the 100 ms `setInterval` callback in `requestSteamCode`:
updates progress and countdown and, when the countdown reaches zero, clears
the interval, moves to `error`, notifies, and appends the `TIMEOUT` entry.
It does not clear `timeoutRef`. -/
def intervalTick (now : Nat) (s : Model) : Model :=
  if s.intervalActive = false then s
  else
    let elapsed := now - s.startTime
    let progressPercent : Rat := min ((elapsed : Rat) / 45000 * 100) 100
    let remaining : Nat := 45 - elapsed / 1000
    let s1 := { s with progress := progressPercent, timeRemaining := remaining }
    if remaining = 0 then
      let s2 := { s1 with intervalActive := false, state := AppState.error }
      let s3 := showNotification now "Timeout: Código não encontrado em 45 segundos" s2
      let newRequest : CodeRequest :=
        { id := toString now
          code := "TIMEOUT"
          timestamp := now
          status := RequestStatus.error
          searchTime := 45000 }
      { s3 with history := appendHistory newRequest s3.history }
    else s1

/-- The 45 000 ms `setTimeout` callback in `requestSteamCode`: clears the
interval and moves to `error`.  It appends nothing and sends no
notification. -/
def budgetTimeout (s : Model) : Model :=
  if s.timeoutActive = false then s
  else { s with intervalActive := false, timeoutActive := false, state := AppState.error }

/-- The `await Steam2FASimulator.simulateSearch()` success continuation:
clears both timers, stores the code, moves to `found` with progress 100,
notifies, appends the success entry, and schedules the anonymous 30-second
auto-`success` timer (not stored in any ref). -/
def lookupSuccess (now : Nat) (code : String) (searchTime : Nat) (s : Model) : Model :=
  let s1 := { s with intervalActive := false, timeoutActive := false }
  let s2 := { s1 with currentCode := code, state := AppState.found, progress := 100 }
  let s3 := showNotification now "Código encontrado com sucesso!" s2
  let newRequest : CodeRequest :=
    { id := toString now
      code := code
      timestamp := now
      status := RequestStatus.success
      searchTime := searchTime }
  let s4 := { s3 with history := appendHistory newRequest s3.history }
  { s4 with pendingSuccess := s4.pendingSuccess ++ [now + 30000] }

/-- The `catch` branch of `requestSteamCode`: clears both timers, moves to
`error`, notifies, and appends the `ERROR` entry with `searchTime: 0`. -/
def lookupFailure (now : Nat) (s : Model) : Model :=
  let s1 := { s with intervalActive := false, timeoutActive := false
                     state := AppState.error }
  let s2 := showNotification now "Erro: Não foi possível encontrar o código" s1
  let newRequest : CodeRequest :=
    { id := toString now
      code := "ERROR"
      timestamp := now
      status := RequestStatus.error
      searchTime := 0 }
  { s2 with history := appendHistory newRequest s2.history }

/-- Firing of one anonymous 30-second timer `setTimeout(() => setState(SUCCESS),
30000)`: it exists exactly when its due time is still pending, and it sets the
state to `success` unconditionally. -/
def autoSuccessFire (now : Nat) (s : Model) : Model :=
  if now ∈ s.pendingSuccess then
    { s with state := AppState.success, pendingSuccess := s.pendingSuccess.erase now }
  else s

/-- Firing of one 3-second notification clear scheduled by `showNotification`. -/
def notifClearFire (now : Nat) (s : Model) : Model :=
  if now ∈ s.pendingNotifClears then
    { s with notification := "", pendingNotifClears := s.pendingNotifClears.erase now }
  else s

/-- `resetInterface`: back to `idle`, transient fields cleared, and the two
ref-held timers cleared.  The anonymous auto-`success` timers are not touched
(the source keeps no handle to them), and neither are `lastRequestTime` and
`history`. -/
def resetInterface (s : Model) : Model :=
  { s with state := AppState.idle
           currentCode := ""
           progress := 0
           timeRemaining := 0
           intervalActive := false
           timeoutActive := false }

/-- The history-visibility toggle button. -/
def toggleShowHistory (s : Model) : Model :=
  { s with showHistory := ! s.showHistory }

/-- The events the event loop can deliver to the component. -/
inductive Event where
  | tick
  | budget
  | lookupOk (code : String) (searchTime : Nat)
  | lookupErr
  | autoSuccess
  | notifClear
  | userRequest
  | userReset
  | userToggleHistory
deriving DecidableEq

/-- Dispatch of one time-stamped event to the corresponding source callback. -/
def step (s : Model) (now : Nat) (e : Event) : Model :=
  match e with
  | Event.tick => intervalTick now s
  | Event.budget => budgetTimeout s
  | Event.lookupOk c t => lookupSuccess now c t s
  | Event.lookupErr => lookupFailure now s
  | Event.autoSuccess => autoSuccessFire now s
  | Event.notifClear => notifClearFire now s
  | Event.userRequest => (requestSteamCode now s).1
  | Event.userReset => resetInterface s
  | Event.userToggleHistory => toggleShowHistory s

/-- A run of the single-threaded event loop over a time-ordered event list. -/
def run (s : Model) (trace : List (Nat × Event)) : Model :=
  trace.foldl (fun acc te => step acc te.1 te.2) s

/-- The first `n` firings of the 100 ms interval started at `t0`: due times
`t0 + 100`, `t0 + 200`, .... -/
def ticksFrom (t0 : Nat) (n : Nat) : List (Nat × Event) :=
  (List.range n).map (fun k => (t0 + 100 * (k + 1), Event.tick))

theorem run_cons (s : Model) (te : Nat × Event) (l : List (Nat × Event)) :
    run s (te :: l) = run (step s te.1 te.2) l := rfl

theorem run_append (s : Model) (a b : List (Nat × Event)) :
    run s (a ++ b) = run (run s a) b := by
  simp [run, List.foldl_append]

theorem ticksFrom_succ (t0 n : Nat) :
    ticksFrom t0 (n + 1) = ticksFrom t0 n ++ [(t0 + 100 * (n + 1), Event.tick)] := by
  simp [ticksFrom, List.range_succ]

theorem requestSteamCode_start (now : Nat) (s : Model)
    (hrate : now - s.lastRequestTime > 60000) (hstate : s.state ≠ AppState.searching) :
    requestSteamCode now s =
      ({ s with state := AppState.searching
                currentCode := ""
                progress := 0
                timeRemaining := 45
                lastRequestTime := now
                startTime := now
                intervalActive := true
                timeoutActive := true }, true) := by
  have h1 : canRequestCode now s = true := by
    rw [canRequestCode]
    exact decide_eq_true hrate
  simp [requestSteamCode, h1, hstate]

theorem appendHistory_length_le (entry : CodeRequest) (h : List CodeRequest) :
    (appendHistory entry h).length ≤ 10 := by
  have := List.length_take_le 9 h
  simp only [appendHistory, List.length_cons]
  omega

theorem lookupSuccess_shape (now : Nat) (c : String) (st : Nat) (s : Model) :
    lookupSuccess now c st s =
      { s with intervalActive := false
               timeoutActive := false
               currentCode := c
               state := AppState.found
               progress := 100
               notification := "Código encontrado com sucesso!"
               pendingNotifClears := s.pendingNotifClears ++ [now + 3000]
               history := appendHistory
                 { id := toString now
                   code := c
                   timestamp := now
                   status := RequestStatus.success
                   searchTime := st } s.history
               pendingSuccess := s.pendingSuccess ++ [now + 30000] } := rfl

theorem lookupFailure_shape (now : Nat) (s : Model) :
    lookupFailure now s =
      { s with intervalActive := false
               timeoutActive := false
               state := AppState.error
               notification := "Erro: Não foi possível encontrar o código"
               pendingNotifClears := s.pendingNotifClears ++ [now + 3000]
               history := appendHistory
                 { id := toString now
                   code := "ERROR"
                   timestamp := now
                   status := RequestStatus.error
                   searchTime := 0 } s.history } := rfl

theorem intervalTick_expire (now : Nat) (s : Model)
    (hact : s.intervalActive = true) (helapsed : now - s.startTime = 45000) :
    intervalTick now s =
      { s with progress := 100
               timeRemaining := 0
               intervalActive := false
               state := AppState.error
               notification := "Timeout: Código não encontrado em 45 segundos"
               pendingNotifClears := s.pendingNotifClears ++ [now + 3000]
               history := appendHistory
                 { id := toString now
                   code := "TIMEOUT"
                   timestamp := now
                   status := RequestStatus.error
                   searchTime := 45000 } s.history } := by
  unfold intervalTick
  rw [helapsed]
  norm_num [hact, showNotification]

theorem intervalTick_inactive (now : Nat) (s : Model)
    (hact : s.intervalActive = false) : intervalTick now s = s := by
  simp [intervalTick, hact]

theorem intervalTick_running (now : Nat) (s : Model)
    (hact : s.intervalActive = true) (helapsed : now - s.startTime < 45000) :
    intervalTick now s =
      { s with progress := min (((now - s.startTime : Nat) : Rat) / 45000 * 100) 100
               timeRemaining := 45 - (now - s.startTime) / 1000 } := by
  have hrem : 45 - (now - s.startTime) / 1000 ≠ 0 := by omega
  simp [intervalTick, hact, hrem]

theorem step_history_shape (s : Model) (now : Nat) (e : Event) :
    (step s now e).history = s.history ∨
      ∃ entry, (step s now e).history = appendHistory entry s.history := by
  cases e with
  | tick =>
      rw [step, intervalTick]
      split
      · exact Or.inl rfl
      · dsimp only
        split
        · exact Or.inr ⟨_, rfl⟩
        · exact Or.inl rfl
  | budget =>
      rw [step, budgetTimeout]
      split
      · exact Or.inl rfl
      · exact Or.inl rfl
  | lookupOk c t => exact Or.inr ⟨_, rfl⟩
  | lookupErr => exact Or.inr ⟨_, rfl⟩
  | autoSuccess =>
      rw [step, autoSuccessFire]
      split
      · exact Or.inl rfl
      · exact Or.inl rfl
  | notifClear =>
      rw [step, notifClearFire]
      split
      · exact Or.inl rfl
      · exact Or.inl rfl
  | userRequest =>
      rw [step, requestSteamCode]
      split
      · exact Or.inl rfl
      · split
        · exact Or.inl rfl
        · exact Or.inl rfl
  | userReset => exact Or.inl rfl
  | userToggleHistory => exact Or.inl rfl

theorem step_history_length_le (s : Model) (now : Nat) (e : Event)
    (h : s.history.length ≤ 10) : (step s now e).history.length ≤ 10 := by
  rcases step_history_shape s now e with heq | ⟨entry, heq⟩
  · rw [heq]
    exact h
  · rw [heq]
    exact appendHistory_length_le entry s.history

theorem run_history_length_le (trace : List (Nat × Event)) (s : Model)
    (h : s.history.length ≤ 10) : (run s trace).history.length ≤ 10 := by
  induction trace generalizing s with
  | nil => exact h
  | cons te rest ih =>
      rw [run_cons]
      exact ih (step s te.1 te.2) (step_history_length_le s te.1 te.2 h)

theorem run_ticksFrom_early (t0 : Nat) (s : Model) (hstart : s.startTime = t0) :
    ∀ n : Nat, 100 * n < 45000 →
      ∃ p r, run s (ticksFrom t0 n) = { s with progress := p, timeRemaining := r } := by
  intro n
  induction n with
  | zero =>
      intro _
      exact ⟨s.progress, s.timeRemaining, by cases s; rfl⟩
  | succ n ih =>
      intro hn
      obtain ⟨p, r, hrun⟩ := ih (by omega)
      rw [ticksFrom_succ, run_append, hrun]
      by_cases hact : s.intervalActive = true
      · rw [show run { s with progress := p, timeRemaining := r }
              [(t0 + 100 * (n + 1), Event.tick)] =
            intervalTick (t0 + 100 * (n + 1))
              { s with progress := p, timeRemaining := r } from rfl]
        rw [intervalTick_running _ _ (by simpa using hact) (by simp [hstart]; omega)]
        exact ⟨_, _, rfl⟩
      · rw [show run { s with progress := p, timeRemaining := r }
              [(t0 + 100 * (n + 1), Event.tick)] =
            intervalTick (t0 + 100 * (n + 1))
              { s with progress := p, timeRemaining := r } from rfl]
        rw [intervalTick_inactive _ _ (by simpa using Bool.of_not_eq_true hact)]
        exact ⟨p, r, rfl⟩

/-- Claim C5: if fewer than 60 seconds have elapsed since the last issuance
time when `requestCode()` is called, the lifecycle state, transient fields,
issuance time, and history are all unchanged and no lookup is started; the
only effect is the refusal notification. -/
theorem rate_limited_noop (now : Nat) (s : Model)
    (h : now - s.lastRequestTime < 60000) :
    (requestSteamCode now s).2 = false ∧
    (requestSteamCode now s).1.state = s.state ∧
    (requestSteamCode now s).1.currentCode = s.currentCode ∧
    (requestSteamCode now s).1.progress = s.progress ∧
    (requestSteamCode now s).1.timeRemaining = s.timeRemaining ∧
    (requestSteamCode now s).1.lastRequestTime = s.lastRequestTime ∧
    (requestSteamCode now s).1.history = s.history ∧
    (requestSteamCode now s).1.intervalActive = s.intervalActive ∧
    (requestSteamCode now s).1.timeoutActive = s.timeoutActive ∧
    (requestSteamCode now s).1.startTime = s.startTime ∧
    (requestSteamCode now s).1.pendingSuccess = s.pendingSuccess ∧
    (requestSteamCode now s).1.notification =
      "Aguarde 1 minuto antes de solicitar novamente" := by
  have h1 : canRequestCode now s = false := by
    rw [canRequestCode]
    simp only [decide_eq_false_iff_not, not_lt]
    omega
  simp [requestSteamCode, h1, showNotification]

/-- Witness for `rate_limited_noop` at `now = 1000` from the initial state. -/
theorem rate_limited_noop_witness :
    (requestSteamCode 1000 initModel).2 = false ∧
    (requestSteamCode 1000 initModel).1.state = initModel.state ∧
    (requestSteamCode 1000 initModel).1.currentCode = initModel.currentCode ∧
    (requestSteamCode 1000 initModel).1.progress = initModel.progress ∧
    (requestSteamCode 1000 initModel).1.timeRemaining = initModel.timeRemaining ∧
    (requestSteamCode 1000 initModel).1.lastRequestTime = initModel.lastRequestTime ∧
    (requestSteamCode 1000 initModel).1.history = initModel.history ∧
    (requestSteamCode 1000 initModel).1.intervalActive = initModel.intervalActive ∧
    (requestSteamCode 1000 initModel).1.timeoutActive = initModel.timeoutActive ∧
    (requestSteamCode 1000 initModel).1.startTime = initModel.startTime ∧
    (requestSteamCode 1000 initModel).1.pendingSuccess = initModel.pendingSuccess ∧
    (requestSteamCode 1000 initModel).1.notification =
      "Aguarde 1 minuto antes de solicitar novamente" :=
  rate_limited_noop 1000 initModel (by decide)

/-- Claim C9: a `requestCode()` call made while the state is `searching`
changes none of the state, transient fields, issuance time, or history, and
starts no lookup and no timers. -/
theorem searching_request_noop (now : Nat) (s : Model)
    (h : s.state = AppState.searching) :
    (requestSteamCode now s).2 = false ∧
    (requestSteamCode now s).1.state = s.state ∧
    (requestSteamCode now s).1.currentCode = s.currentCode ∧
    (requestSteamCode now s).1.progress = s.progress ∧
    (requestSteamCode now s).1.timeRemaining = s.timeRemaining ∧
    (requestSteamCode now s).1.lastRequestTime = s.lastRequestTime ∧
    (requestSteamCode now s).1.history = s.history ∧
    (requestSteamCode now s).1.intervalActive = s.intervalActive ∧
    (requestSteamCode now s).1.timeoutActive = s.timeoutActive ∧
    (requestSteamCode now s).1.startTime = s.startTime ∧
    (requestSteamCode now s).1.pendingSuccess = s.pendingSuccess := by
  by_cases hc : canRequestCode now s = false
  · simp [requestSteamCode, hc, showNotification]
  · simp [requestSteamCode, hc, h]

/-- Witness for `searching_request_noop` in a concrete `searching` state. -/
theorem searching_request_noop_witness :
    (requestSteamCode 0 { initModel with state := AppState.searching }).2 = false ∧
    (requestSteamCode 0 { initModel with state := AppState.searching }).1.state =
      ({ initModel with state := AppState.searching } : Model).state ∧
    (requestSteamCode 0 { initModel with state := AppState.searching }).1.currentCode =
      ({ initModel with state := AppState.searching } : Model).currentCode ∧
    (requestSteamCode 0 { initModel with state := AppState.searching }).1.progress =
      ({ initModel with state := AppState.searching } : Model).progress ∧
    (requestSteamCode 0 { initModel with state := AppState.searching }).1.timeRemaining =
      ({ initModel with state := AppState.searching } : Model).timeRemaining ∧
    (requestSteamCode 0 { initModel with state := AppState.searching }).1.lastRequestTime =
      ({ initModel with state := AppState.searching } : Model).lastRequestTime ∧
    (requestSteamCode 0 { initModel with state := AppState.searching }).1.history =
      ({ initModel with state := AppState.searching } : Model).history ∧
    (requestSteamCode 0 { initModel with state := AppState.searching }).1.intervalActive =
      ({ initModel with state := AppState.searching } : Model).intervalActive ∧
    (requestSteamCode 0 { initModel with state := AppState.searching }).1.timeoutActive =
      ({ initModel with state := AppState.searching } : Model).timeoutActive ∧
    (requestSteamCode 0 { initModel with state := AppState.searching }).1.startTime =
      ({ initModel with state := AppState.searching } : Model).startTime ∧
    (requestSteamCode 0 { initModel with state := AppState.searching }).1.pendingSuccess =
      ({ initModel with state := AppState.searching } : Model).pendingSuccess :=
  searching_request_noop 0 { initModel with state := AppState.searching } rfl

/-- Claim C2 (amended): `reset()` returns to `idle`, clears the transient
fields, cancels the two ref-held timers (the progress interval and the
45-second budget timeout), and leaves the rate-limit state and the history
unchanged; it does NOT cancel a pending scheduled transition to `success`,
because the 30-second auto-`success` timer is never stored in a ref. -/
theorem reset_amended (s : Model) :
    (resetInterface s).state = AppState.idle ∧
    (resetInterface s).currentCode = "" ∧
    (resetInterface s).progress = 0 ∧
    (resetInterface s).timeRemaining = 0 ∧
    (resetInterface s).intervalActive = false ∧
    (resetInterface s).timeoutActive = false ∧
    (resetInterface s).lastRequestTime = s.lastRequestTime ∧
    (resetInterface s).history = s.history ∧
    (resetInterface s).pendingSuccess = s.pendingSuccess := by
  simp [resetInterface]

set_option maxRecDepth 40000 in
/-- Counterexample to claim C2 as stated: issue a request at t = 100000,
let the lookup succeed at t = 103000 (scheduling the auto-`success` timer for
t = 133000), reset at some point afterwards.  The reset does return to `idle`
but leaves the scheduled `success` transition pending, and when it fires at
t = 133000 the state becomes `success` although the user reset the
interface. -/
theorem reset_keeps_scheduled_success :
    (resetInterface (run (requestSteamCode 100000 initModel).1
        (ticksFrom 100000 30 ++ [(103000, Event.lookupOk "AB3K9" 3000)]))).state
      = AppState.idle ∧
    (resetInterface (run (requestSteamCode 100000 initModel).1
        (ticksFrom 100000 30 ++ [(103000, Event.lookupOk "AB3K9" 3000)]))).pendingSuccess
      = [133000] ∧
    (run (resetInterface (run (requestSteamCode 100000 initModel).1
        (ticksFrom 100000 30 ++ [(103000, Event.lookupOk "AB3K9" 3000)])))
        [(133000, Event.autoSuccess)]).state = AppState.success := by
  decide

/-- Claim C3 counterexample: when the stored history string is present but
does not parse, the startup effect does not fall back to an empty log — the
`JSON.parse` exception propagates. -/
theorem loadHistory_parse_failure_raises :
    loadHistory (some none) = Except.error "SyntaxError: JSON.parse" ∧
    loadHistory (some none) ≠ Except.ok ([] : List CodeRequest) := by
  refine ⟨rfl, ?_⟩
  intro h
  exact Except.noConfusion h

/-- Claim C3 (amended): a missing stored history yields an empty initial
log, and a stored history that parses is loaded as-is; but a present,
unparsable stored history raises an uncaught exception during startup
instead of being treated as an empty log. -/
theorem loadHistory_amended (parsed : List CodeRequest) :
    loadHistory none = Except.ok ([] : List CodeRequest) ∧
    loadHistory (some (some parsed)) = Except.ok parsed ∧
    loadHistory (some none) = Except.error "SyntaxError: JSON.parse" :=
  ⟨rfl, rfl, rfl⟩

/-- Counterexample to claim C8 as stated: from the `error` state, once the
60-second cooldown has elapsed, `requestCode()` is not a no-op — it starts a
new search. -/
theorem error_state_request_after_cooldown :
    ((requestSteamCode 70000 { initModel with state := AppState.error }).1).state
      = AppState.searching ∧
    ((requestSteamCode 70000 { initModel with state := AppState.error }).1).state
      ≠ AppState.error := by
  decide

/-- Claim C8 (amended): `success` and `error` are stable under every
operation other than reset only while the 60-second cooldown since the last
issuance has not elapsed (within the cooldown `requestCode()` changes no
state and starts nothing); a `requestCode()` made after the cooldown leaves
`success`/`error` for `searching`.  `reset()` returns to `idle`. -/
theorem stable_within_cooldown (now : Nat) (s : Model)
    (_hs : s.state = AppState.success ∨ s.state = AppState.error)
    (hcool : now - s.lastRequestTime ≤ 60000) :
    (requestSteamCode now s).1.state = s.state ∧
    (requestSteamCode now s).2 = false ∧
    (resetInterface s).state = AppState.idle := by
  have h1 : canRequestCode now s = false := by
    rw [canRequestCode]
    simp only [decide_eq_false_iff_not, not_lt]
    omega
  simp [requestSteamCode, h1, showNotification, resetInterface]

/-- Witness for `stable_within_cooldown` in a concrete `error` state inside
the cooldown window. -/
theorem stable_within_cooldown_witness :
    (requestSteamCode 1000 { initModel with state := AppState.error }).1.state =
      ({ initModel with state := AppState.error } : Model).state ∧
    (requestSteamCode 1000 { initModel with state := AppState.error }).2 = false ∧
    (resetInterface { initModel with state := AppState.error }).state = AppState.idle :=
  stable_within_cooldown 1000 { initModel with state := AppState.error }
    (Or.inr rfl) (by decide)

/-- Claim C4: along every run the history log keeps at most 10 entries; each
append puts the new entry at index 0 and keeps exactly 10 entries when the
log was at capacity (evicting the oldest); and after 11 appends of pairwise
distinct entries the first-appended entry is absent and the most recent is at
index 0 (the log is exactly the 2nd through 11th entries, newest first). -/
theorem history_bounded :
    (∀ (s : Model) (trace : List (Nat × Event)),
        s.history.length ≤ 10 → (run s trace).history.length ≤ 10) ∧
    (∀ (entry : CodeRequest) (h : List CodeRequest),
        (appendHistory entry h).head? = some entry ∧
        (appendHistory entry h).length ≤ 10 ∧
        (h.length = 10 → (appendHistory entry h).length = 10)) ∧
    (∀ f : Nat → CodeRequest,
        (∀ i, i < 11 → ∀ j, j < 11 → f i = f j → i = j) →
        (List.range 11).foldl (fun acc i => appendHistory (f i) acc) [] =
            [f 10, f 9, f 8, f 7, f 6, f 5, f 4, f 3, f 2, f 1] ∧
          f 0 ∉ (List.range 11).foldl (fun acc i => appendHistory (f i) acc) []) := by
  refine ⟨?_, ?_, ?_⟩
  · intro s trace h
    exact run_history_length_le trace s h
  · intro entry h
    refine ⟨rfl, appendHistory_length_le entry h, ?_⟩
    intro h10
    simp [appendHistory, List.length_take, h10]
  · intro f hinj
    have h0 : (List.range 11).foldl (fun acc i => appendHistory (f i) acc) [] =
        [f 10, f 9, f 8, f 7, f 6, f 5, f 4, f 3, f 2, f 1] := rfl
    refine ⟨h0, ?_⟩
    intro hmem
    rw [h0] at hmem
    simp only [List.mem_cons, List.not_mem_nil, or_false] at hmem
    rcases hmem with h|h|h|h|h|h|h|h|h|h
    · exact absurd (hinj 0 (by omega) 10 (by omega) h) (by omega)
    · exact absurd (hinj 0 (by omega) 9 (by omega) h) (by omega)
    · exact absurd (hinj 0 (by omega) 8 (by omega) h) (by omega)
    · exact absurd (hinj 0 (by omega) 7 (by omega) h) (by omega)
    · exact absurd (hinj 0 (by omega) 6 (by omega) h) (by omega)
    · exact absurd (hinj 0 (by omega) 5 (by omega) h) (by omega)
    · exact absurd (hinj 0 (by omega) 4 (by omega) h) (by omega)
    · exact absurd (hinj 0 (by omega) 3 (by omega) h) (by omega)
    · exact absurd (hinj 0 (by omega) 2 (by omega) h) (by omega)
    · exact absurd (hinj 0 (by omega) 1 (by omega) h) (by omega)

/-- A sample history entry for the `history_bounded` witness. -/
def sampleEntry : CodeRequest :=
  { id := "0", code := "AB3K9", timestamp := 0
    status := RequestStatus.success, searchTime := 3000 }

/-- A sample at-capacity history for the `history_bounded` witness. -/
def sampleFullHistory : List CodeRequest :=
  List.replicate 10 sampleEntry

/-- A sample family of pairwise-distinct entries for the `history_bounded`
witness. -/
def sampleEntryAt (i : Nat) : CodeRequest :=
  { id := toString i, code := "AB3K9", timestamp := i
    status := RequestStatus.success, searchTime := 3000 }

/-- Witness for `history_bounded`: a concrete run, a concrete at-capacity
append, and the concrete eleven-append scenario. -/
theorem history_bounded_witness :
    (run initModel [(100000, Event.userRequest)]).history.length ≤ 10 ∧
    (appendHistory sampleEntry sampleFullHistory).head? = some sampleEntry ∧
    (appendHistory sampleEntry sampleFullHistory).length = 10 ∧
    ((List.range 11).foldl (fun acc i => appendHistory (sampleEntryAt i) acc) [] =
        [sampleEntryAt 10, sampleEntryAt 9, sampleEntryAt 8, sampleEntryAt 7,
          sampleEntryAt 6, sampleEntryAt 5, sampleEntryAt 4, sampleEntryAt 3,
          sampleEntryAt 2, sampleEntryAt 1] ∧
      sampleEntryAt 0 ∉
        (List.range 11).foldl (fun acc i => appendHistory (sampleEntryAt i) acc) []) :=
  ⟨history_bounded.1 initModel [(100000, Event.userRequest)] (by decide),
    (history_bounded.2.1 sampleEntry sampleFullHistory).1,
    (history_bounded.2.1 sampleEntry sampleFullHistory).2.2 rfl,
    history_bounded.2.2 sampleEntryAt (by decide)⟩

theorem run_single (s : Model) (t : Nat) (e : Event) :
    run s [(t, e)] = step s t e := rfl

/-- The deterministic event-loop schedule of one request issued at `t0` whose
lookup settles at `t0 + delay`, truncated at the settlement instant: the
interval ticks due by then (tick `k` is due at `t0 + 100 k`, so there are
`delay / 100` of them; at a tie the earlier-registered interval fires before
the lookup continuation) followed by the lookup settlement event.  Used for
lookups that settle before the 45-second budget. -/
def lookupRunAt (t0 delay : Nat) (e : Event) (s0 : Model) : Model :=
  run (requestSteamCode t0 s0).1
    (ticksFrom t0 (delay / 100) ++ [(t0 + delay, e)])

/-- The deterministic event-loop schedule of one request issued at `t0` whose
lookup has not settled when the 45-second budget elapses, truncated at the
budget instant `t0 + 45000`: all 450 interval ticks (the 450th, due exactly
at `t0 + 45000`, fires before the budget `setTimeout` registered after it)
followed by the budget timeout. -/
def timeoutRunAt (t0 : Nat) (s0 : Model) : Model :=
  run (requestSteamCode t0 s0).1 (ticksFrom t0 450 ++ [(t0 + 45000, Event.budget)])

/-- Claim C7: when the lookup resolves successfully at `t0 + delay`, before
the 45-second budget, the state is `found`, progress is 100, the resolved
code is the current code, and a success entry with that code and duration is
at the front of the history, the rest of the history being the previous
entries (truncated to 9). -/
theorem lookup_success_outcome (t0 delay : Nat) (code : String) (searchTime : Nat)
    (s0 : Model) (hrate : t0 - s0.lastRequestTime > 60000)
    (hstate : s0.state ≠ AppState.searching) (hdelay : delay < 45000) :
    (lookupRunAt t0 delay (Event.lookupOk code searchTime) s0).state
      = AppState.found ∧
    (lookupRunAt t0 delay (Event.lookupOk code searchTime) s0).progress = 100 ∧
    (lookupRunAt t0 delay (Event.lookupOk code searchTime) s0).currentCode = code ∧
    (lookupRunAt t0 delay (Event.lookupOk code searchTime) s0).history.head? =
      some { id := toString (t0 + delay), code := code, timestamp := t0 + delay
             status := RequestStatus.success, searchTime := searchTime } ∧
    (lookupRunAt t0 delay (Event.lookupOk code searchTime) s0).history.tail =
      s0.history.take 9 := by
  have hreq := requestSteamCode_start t0 s0 hrate hstate
  unfold lookupRunAt
  rw [hreq]
  dsimp only
  obtain ⟨p, r, hrun⟩ := run_ticksFrom_early t0
    { s0 with state := AppState.searching
              currentCode := ""
              progress := 0
              timeRemaining := 45
              lastRequestTime := t0
              startTime := t0
              intervalActive := true
              timeoutActive := true }
    rfl (delay / 100) (by omega)
  rw [run_append, hrun, run_single]
  simp only [step]
  rw [lookupSuccess_shape]
  simp [appendHistory]

/-- Witness for `lookup_success_outcome`: the spec's own example — request at
`t0 = 100000` from the initial state, lookup resolving with code `AB3K9`
after 3000 ms. -/
theorem lookup_success_outcome_witness :
    (lookupRunAt 100000 3000 (Event.lookupOk "AB3K9" 3000) initModel).state
      = AppState.found ∧
    (lookupRunAt 100000 3000 (Event.lookupOk "AB3K9" 3000) initModel).progress = 100 ∧
    (lookupRunAt 100000 3000 (Event.lookupOk "AB3K9" 3000) initModel).currentCode
      = "AB3K9" ∧
    (lookupRunAt 100000 3000 (Event.lookupOk "AB3K9" 3000) initModel).history.head? =
      some { id := toString 103000, code := "AB3K9", timestamp := 103000
             status := RequestStatus.success, searchTime := 3000 } ∧
    (lookupRunAt 100000 3000 (Event.lookupOk "AB3K9" 3000) initModel).history.tail =
      initModel.history.take 9 :=
  lookup_success_outcome 100000 3000 "AB3K9" 3000 initModel (by decide) (by decide)
    (by decide)

/-- Claim C6: when the lookup has not settled by the time the 45-second
budget elapses, at the budget instant the state is `error` and exactly one
entry has been appended for the request: the timeout sentinel `TIMEOUT`,
status `error`, duration exactly 45000 ms.  (What a lookup completion
arriving after this point does is the subject of claim C1.) -/
theorem timeout_outcome (t0 : Nat) (s0 : Model)
    (hrate : t0 - s0.lastRequestTime > 60000)
    (hstate : s0.state ≠ AppState.searching) :
    (timeoutRunAt t0 s0).state = AppState.error ∧
    (timeoutRunAt t0 s0).history.head? =
      some { id := toString (t0 + 45000), code := "TIMEOUT", timestamp := t0 + 45000
             status := RequestStatus.error, searchTime := 45000 } ∧
    (timeoutRunAt t0 s0).history.tail = s0.history.take 9 := by
  have hreq := requestSteamCode_start t0 s0 hrate hstate
  unfold timeoutRunAt
  rw [hreq]
  dsimp only
  have hsplit : ticksFrom t0 450 =
      ticksFrom t0 449 ++ [(t0 + 45000, Event.tick)] := by
    have := ticksFrom_succ t0 449
    norm_num at this
    exact this
  rw [hsplit]
  obtain ⟨p, r, hrun⟩ := run_ticksFrom_early t0
    { s0 with state := AppState.searching
              currentCode := ""
              progress := 0
              timeRemaining := 45
              lastRequestTime := t0
              startTime := t0
              intervalActive := true
              timeoutActive := true }
    rfl 449 (by omega)
  rw [run_append, run_append, hrun]
  simp only [run_single, step]
  rw [intervalTick_expire _ _ rfl (by simp)]
  simp [budgetTimeout, appendHistory]

/-- Witness for `timeout_outcome`: request at `t0 = 100000` from the initial
state, lookup still pending at `t0 + 45000`. -/
theorem timeout_outcome_witness :
    (timeoutRunAt 100000 initModel).state = AppState.error ∧
    (timeoutRunAt 100000 initModel).history.head? =
      some { id := toString 145000, code := "TIMEOUT", timestamp := 145000
             status := RequestStatus.error, searchTime := 45000 } ∧
    (timeoutRunAt 100000 initModel).history.tail = initModel.history.take 9 :=
  timeout_outcome 100000 initModel (by decide) (by decide)

/-- Claim C10: when the lookup fails (rejects) at `t0 + delay`, before the
45-second budget, the state is `error` and exactly one entry is appended:
the sentinel code `ERROR`, status `error`, and `searchTime` 0 rather than
the elapsed lookup time. -/
theorem lookup_failure_outcome (t0 delay : Nat) (s0 : Model)
    (hrate : t0 - s0.lastRequestTime > 60000)
    (hstate : s0.state ≠ AppState.searching) (hdelay : delay < 45000) :
    (lookupRunAt t0 delay Event.lookupErr s0).state = AppState.error ∧
    (lookupRunAt t0 delay Event.lookupErr s0).history.head? =
      some { id := toString (t0 + delay), code := "ERROR", timestamp := t0 + delay
             status := RequestStatus.error, searchTime := 0 } ∧
    (lookupRunAt t0 delay Event.lookupErr s0).history.tail =
      s0.history.take 9 := by
  have hreq := requestSteamCode_start t0 s0 hrate hstate
  unfold lookupRunAt
  rw [hreq]
  dsimp only
  obtain ⟨p, r, hrun⟩ := run_ticksFrom_early t0
    { s0 with state := AppState.searching
              currentCode := ""
              progress := 0
              timeRemaining := 45
              lastRequestTime := t0
              startTime := t0
              intervalActive := true
              timeoutActive := true }
    rfl (delay / 100) (by omega)
  rw [run_append, hrun, run_single]
  simp only [step]
  rw [lookupFailure_shape]
  simp [appendHistory]

/-- Witness for `lookup_failure_outcome`: request at `t0 = 100000` from the
initial state, lookup rejecting after 3000 ms. -/
theorem lookup_failure_outcome_witness :
    (lookupRunAt 100000 3000 Event.lookupErr initModel).state = AppState.error ∧
    (lookupRunAt 100000 3000 Event.lookupErr initModel).history.head? =
      some { id := toString 103000, code := "ERROR", timestamp := 103000
             status := RequestStatus.error, searchTime := 0 } ∧
    (lookupRunAt 100000 3000 Event.lookupErr initModel).history.tail =
      initModel.history.take 9 :=
  lookup_failure_outcome 100000 3000 initModel (by decide) (by decide) (by decide)

set_option maxRecDepth 200000 in
/-- Claim C1 fails on the code (the source tracks no generation/validity
token, so nothing guards the `await` continuation): request at `t0 = 100000`,
budget elapses at `t = 145000` — state `error`, one `TIMEOUT` entry — and
then the lookup promise settles successfully at `t = 146000`: the late
continuation runs anyway, the state changes to `found` and a second history
entry is appended for the same request. -/
theorem timeout_then_late_lookup_mutates :
    (run (requestSteamCode 100000 initModel).1
        (ticksFrom 100000 450 ++ [(145000, Event.budget)])).state
      = AppState.error ∧
    ((run (requestSteamCode 100000 initModel).1
        (ticksFrom 100000 450 ++ [(145000, Event.budget)])).history.map
        (fun e => e.code)) = ["TIMEOUT"] ∧
    (run (requestSteamCode 100000 initModel).1
        (ticksFrom 100000 450 ++ [(145000, Event.budget),
          (146000, Event.lookupOk "AB3K9" 3000)])).state = AppState.found ∧
    ((run (requestSteamCode 100000 initModel).1
        (ticksFrom 100000 450 ++ [(145000, Event.budget),
          (146000, Event.lookupOk "AB3K9" 3000)])).history.map
        (fun e => e.code)) = ["AB3K9", "TIMEOUT"] := by
  decide
